import Mathlib

/-
Verification development for the novu notification-feed slice:
the data-access repository (libs/dal .../notification.repository.ts) and the
client feed store (packages/notification-center .../notifications-provider.context.tsx).
Timestamps are modelled in whole days as integers.
-/

namespace NovuModel

/-- A notification record as stored in the document collection
(notification.entity fields used by the queries in notification.repository.ts).
Field names keep the source names without the leading underscore.
The createdAt timestamp is modelled in whole days. -/
structure NotificationRecord where
  id : String
  environmentId : String
  organizationId : String
  templateId : String
  subscriberId : String
  transactionId : String
  channels : List String
  createdAt : Int
deriving DecidableEq, Repr

/-- The optional filter argument of getFeed. A field that is none corresponds to
an absent or null/undefined field of the query object in the source. -/
structure FeedQuery where
  channels : Option (List String)
  templates : Option (List String)
  subscriberIds : Option (List String)
  transactionId : Option String
deriving DecidableEq, Repr

/-- The requestQuery built by getFeed, as a predicate on records.
Mirrors the source guards, including JavaScript truthiness:
an empty transactionId string is falsy, so its clause is skipped;
a present (even empty) templates or channels array adds its clause;
subscriberIds adds its clause only when the array is nonempty.
A channels clause matches when some channel of the record is in the list. -/
def matchesFeed (environmentId : String) (query : FeedQuery) (r : NotificationRecord) : Bool :=
  r.environmentId == environmentId
    && (match query.transactionId with
        | some t => if t.isEmpty then true else r.transactionId == t
        | none => true)
    && (match query.templates with
        | some ts => ts.contains r.templateId
        | none => true)
    && (match query.subscriberIds with
        | some ss => if ss.length > 0 then ss.contains r.subscriberId else true
        | none => true)
    && (match query.channels with
        | some cs => r.channels.any (fun c => cs.contains c)
        | none => true)

/-- Insert a record into a list sorted by createdAt descending. -/
def insertDesc (r : NotificationRecord) : List NotificationRecord → List NotificationRecord
  | [] => [r]
  | x :: xs => if x.createdAt ≤ r.createdAt then r :: x :: xs else x :: insertDesc r xs

/-- Sort newest first, modelling the sort by minus createdAt applied by the store. -/
def sortByCreatedAtDesc : List NotificationRecord → List NotificationRecord
  | [] => []
  | x :: xs => insertDesc x (sortByCreatedAtDesc xs)

/-- Result shape of getFeed: total matching count and one page of records. -/
structure FeedPage where
  totalCount : Nat
  data : List NotificationRecord
deriving DecidableEq, Repr

/-- getFeed of notification.repository.ts over a database modelled as a list of
records: countDocuments on the request query, then find with the same query,
sorted newest first, with skip and limit applied after the sort (the document
store applies the sort before skip/limit regardless of chaining order).
The populate calls attach related subscriber/template/job data and do not
change which records are returned, so they are not modelled.
The source defaults are skip = 0 and limit = 10. -/
def getFeed (db : List NotificationRecord) (environmentId : String) (query : FeedQuery)
    (skip : Nat := 0) (limit : Nat := 10) : FeedPage :=
  let matching := db.filter (matchesFeed environmentId query)
  { totalCount := matching.length
    data := ((sortByCreatedAtDesc matching).drop skip).take limit }

/-- Result shape of getStats. -/
structure Stats where
  weekly : Nat
  monthly : Nat
  yearly : Nat
deriving DecidableEq, Repr

/-- getStats of notification.repository.ts. The source computes
yearBefore/monthBefore/weekBefore with date-fns subYears/subMonths/subWeeks of
now; in whole days subWeeks(now, 1) is now - 7, while one calendar month is
between 28 and 31 days and one calendar year is 365 or 366 days, so those two
lengths are parameters. The aggregation matches records of the environment
created at or after yearBefore, then sums a conditional 1 for the weekly and
monthly buckets and an unconditional 1 for the yearly bucket. -/
def getStats (db : List NotificationRecord) (environmentId : String)
    (now monthDays yearDays : Int) : Stats :=
  let yearBefore := now - yearDays
  let monthBefore := now - monthDays
  let weekBefore := now - 7
  let matched := db.filter (fun r => r.environmentId == environmentId && yearBefore ≤ r.createdAt)
  { weekly := matched.countP (fun r => weekBefore ≤ r.createdAt)
    monthly := matched.countP (fun r => monthBefore ≤ r.createdAt)
    yearly := matched.length }

/-- Record constructor used by concrete stats scenarios: only the environment id
and creation time matter to getStats. -/
def mkRecord (environmentId : String) (createdAt : Int) : NotificationRecord :=
  { id := "", environmentId := environmentId, organizationId := "", templateId := ""
    subscriberId := "", transactionId := "", channels := [], createdAt := createdAt }

theorem mem_insertDesc {a r : NotificationRecord} {l : List NotificationRecord}
    (h : a ∈ insertDesc r l) : a = r ∨ a ∈ l := by
  induction l with
  | nil => simpa [insertDesc] using h
  | cons x xs ih =>
    by_cases hx : x.createdAt ≤ r.createdAt
    · simpa [insertDesc, hx] using h
    · simp only [insertDesc, hx, if_false, List.mem_cons] at h
      rcases h with h | h
      · exact Or.inr (by simp [h])
      · rcases ih h with h' | h'
        · exact Or.inl h'
        · exact Or.inr (List.mem_cons_of_mem x h')

theorem mem_sortByCreatedAtDesc {a : NotificationRecord} {l : List NotificationRecord}
    (h : a ∈ sortByCreatedAtDesc l) : a ∈ l := by
  induction l with
  | nil => simp [sortByCreatedAtDesc] at h
  | cons x xs ih =>
    rcases mem_insertDesc (by simpa [sortByCreatedAtDesc] using h) with h' | h'
    · simp [h']
    · exact List.mem_cons_of_mem x (ih h')

theorem mem_getFeed_data {db : List NotificationRecord} {env : String} {query : FeedQuery}
    {skip limit : Nat} {r : NotificationRecord}
    (h : r ∈ (getFeed db env query skip limit).data) : matchesFeed env query r = true := by
  have h1 : r ∈ sortByCreatedAtDesc (db.filter (matchesFeed env query)) :=
    List.mem_of_mem_drop (List.mem_of_mem_take h)
  have h2 := mem_sortByCreatedAtDesc h1
  exact (List.mem_filter.mp h2).2

/-- MessageActionStatusEnum of the shared package: pending or done. -/
inductive MessageActionStatus where
  | pending
  | done
deriving DecidableEq, Repr

/-- An IMessage as used by the provider: id, seen flag, optional read flag
(read is none when the field is undefined on the message), and the nested
cta.action.status flattened to one field. -/
structure Message where
  id : String
  seen : Bool
  read : Option Bool
  actionStatus : MessageActionStatus
deriving DecidableEq, Repr

/-- A JavaScript number restricted to the values the page bookkeeping can
produce: a natural number, or NaN (undefined + 1). -/
inductive JsNum where
  | nan
  | num (n : Nat)
deriving DecidableEq, Repr

/-- Adding 1 in JavaScript: undefined/NaN propagates to NaN. -/
def JsNum.succ : JsNum → JsNum
  | JsNum.nan => JsNum.nan
  | JsNum.num n => JsNum.num (n + 1)

/-- One remote call issued through the api object of the provider, recorded in
order. The getNotificationsList call carries the page argument and the store id
whose query was passed along. -/
inductive ApiCall where
  | getNotificationsList (pageNum : JsNum) (storeId : String)
  | markMessageAsRead (messageId : String)
  | updateActionCall (messageId : String) (actionButtonType : String)
      (status : MessageActionStatus)
  | markMessageAsSeen (messageIds : List String)
deriving DecidableEq, Repr

/-- Lookup in a JavaScript Map or Record modelled as an association list;
none corresponds to undefined. -/
def lookupA {α : Type} (m : List (String × α)) (k : String) : Option α :=
  (m.find? (fun p => p.1 == k)).map (fun p => p.2)

/-- Map.set / record assignment: overwrite the entry when the key is present,
append it otherwise (a JavaScript Map never holds duplicate keys, so
overwriting the first occurrence is the same operation). -/
def setA {α : Type} : List (String × α) → String → α → List (String × α)
  | [], k, v => [(k, v)]
  | x :: xs, k, v => if x.1 == k then (k, v) :: xs else x :: setA xs k v

/-- The state held by NotificationsProvider: the notifications record, the page
and hasNextPage maps, and the fetching flag. The refetchTimeout map is modelled
separately by RefetchState, which is only needed for the debounce behaviour. -/
structure FeedState where
  notifications : List (String × List Message)
  page : List (String × JsNum)
  hasNextPage : List (String × Bool)
  fetching : Bool
deriving DecidableEq, Repr

/-- The useState initial values of the provider: only default_store is seeded,
with an empty list, page 0 and hasNextPage true. -/
def initialState : FeedState :=
  { notifications := [("default_store", [])]
    page := [("default_store", JsNum.num 0)]
    hasNextPage := [("default_store", true)]
    fetching := false }

/-- The api.getNotificationsList collaborator: given the page argument and the
store id (standing for the store query passed along), it returns the fetched
messages, or none when the promise rejects. -/
def Api : Type := JsNum → String → Option (List Message)

/-- fetchPage of the provider. Sets fetching, awaits the api call (a rejection
aborts the rest, leaving fetching set), then sets hasNextPage to false exactly
when fewer than 10 items came back, seeds page 0 for an unseen store id,
and replaces or appends the store message list depending on isRefetch.
Returns the new state and the api calls issued. -/
def fetchPage (api : Api) (s : FeedState) (pageToFetch : JsNum) (isRefetch : Bool)
    (storeId : String) : FeedState × List ApiCall :=
  let s1 : FeedState := { s with fetching := true }
  let call := ApiCall.getNotificationsList pageToFetch storeId
  match api pageToFetch storeId with
  | none => (s1, [call])
  | some newNotifications =>
    let hasMore := if newNotifications.length < 10 then false else true
    let s2 : FeedState := { s1 with hasNextPage := setA s1.hasNextPage storeId hasMore }
    let s3 : FeedState :=
      if (lookupA s2.page storeId).isSome then s2
      else { s2 with page := setA s2.page storeId (JsNum.num 0) }
    let newList :=
      if isRefetch then newNotifications
      else ((lookupA s3.notifications storeId).getD []) ++ newNotifications
    ({ s3 with notifications := setA s3.notifications storeId newList, fetching := false },
      [call])

/-- fetchNextPage of the provider. The guard negates hasNextPage.get(storeId),
so both false and undefined (an unseen store id) return immediately. Otherwise
the page counter is set to page.get(storeId) + 1 BEFORE fetchPage is awaited
(undefined + 1 being NaN), and fetchPage runs with that page number. -/
def fetchNextPage (api : Api) (s : FeedState) (storeId : String) : FeedState × List ApiCall :=
  if (lookupA s.hasNextPage storeId).getD false then
    let nextPage :=
      match lookupA s.page storeId with
      | some j => j.succ
      | none => JsNum.nan
    let s1 : FeedState := { s with page := setA s.page storeId nextPage }
    fetchPage api s1 nextPage false storeId
  else (s, [])

/-- markAsRead of the provider: it awaits api.markMessageAsRead(messageId) and
returns its result. No setState runs, so the local state is returned as is. -/
def markAsRead (s : FeedState) (messageId : String) : FeedState × List ApiCall :=
  (s, [ApiCall.markMessageAsRead messageId])

/-- updateAction of the provider, on the path where the awaited remote call
succeeds: the remote call is issued with the given status, then every store
list is mapped, setting cta.action.status to the constant DONE on messages
whose id matches and leaving the rest untouched. The optional payload argument
is only forwarded to the remote call, so it is not modelled. -/
def updateAction (s : FeedState) (messageId : String) (actionButtonType : String)
    (status : MessageActionStatus) : FeedState × List ApiCall :=
  let patched := s.notifications.map (fun kv =>
    (kv.1, kv.2.map (fun m =>
      if m.id == messageId then { m with actionStatus := MessageActionStatus.done } else m)))
  ({ s with notifications := patched },
    [ApiCall.updateActionCall messageId actionButtonType status])

/-- getNotificationsToMark: an explicitly supplied message or message array is
returned as an array (a single message is the singleton case; note an empty
supplied array is truthy in JavaScript and is returned as is). With nothing
supplied, the store list is filtered to the unseen messages; a store id with no
entry in notifications makes the source throw, modelled as none. -/
def getNotificationsToMark (messagesToMark : Option (List Message))
    (notifications : List (String × List Message)) (storeId : String) :
    Option (List Message) :=
  match messagesToMark with
  | some ms => some ms
  | none => (lookupA notifications storeId).map (fun msgs => msgs.filter (fun n => !n.seen))

/-- filterReadNotifications: with readExist true, keep only messages whose read
field is defined; otherwise keep all. -/
def filterReadNotifications (readExist : Bool) (notificationsToMark : List Message) :
    List Message :=
  if readExist then notificationsToMark.filter (fun m => m.read.isSome)
  else notificationsToMark

/-- markNotificationsAsSeen of the provider: collect the messages to mark, and
when that list is nonempty, send their ids (after the readExist restriction) to
api.markMessageAsSeen. Local state is never modified. The result is the list of
api calls issued, or none when the source would throw on an unknown store id. -/
def markNotificationsAsSeen (s : FeedState) (readExist : Bool)
    (messagesToMark : Option (List Message)) (storeId : String) :
    Option (List ApiCall) :=
  (getNotificationsToMark messagesToMark s.notifications storeId).map
    (fun notificationsToMark =>
      if notificationsToMark.length ≠ 0 then
        [ApiCall.markMessageAsSeen
          ((filterReadNotifications readExist notificationsToMark).map (fun n => n.id))]
      else [])

/-- The ids sent through markMessageAsSeen calls, in order. -/
def seenIdsSent (calls : List ApiCall) : List String :=
  calls.foldr
    (fun c acc =>
      match c with
      | ApiCall.markMessageAsSeen ids => ids ++ acc
      | _ => acc)
    []

/-- State of the refetch debounce machinery for one store id: the feed state,
the fire deadline of the pending timer stored in refetchTimeout (none when no
timer is pending), the api calls issued so far, and how many timers have fired.
Times are in milliseconds. -/
structure RefetchState where
  feed : FeedState
  pendingFire : Option Nat
  calls : List ApiCall
  fireCount : Nat
deriving DecidableEq, Repr

/-- The debounce state before any refetch call: the initial feed state, no
pending timer, no calls, no fires. -/
def initialRefetchState : RefetchState :=
  { feed := initialState, pendingFire := none, calls := [], fireCount := 0 }

/-- A pending timer fires: its callback runs fetchPage(0, true, storeId), a full
replace of page 0 for the store. -/
def fireTimer (api : Api) (storeId : String) (r : RefetchState) : RefetchState :=
  match r.pendingFire with
  | none => r
  | some _ =>
    let result := fetchPage api r.feed (JsNum.num 0) true storeId
    { feed := result.1, pendingFire := none, calls := r.calls ++ result.2,
      fireCount := r.fireCount + 1 }

/-- Let wall-clock time advance to t: a pending timer whose deadline has been
reached fires; a timer whose deadline lies after t stays pending. -/
def advanceTo (api : Api) (storeId : String) (r : RefetchState) (t : Nat) : RefetchState :=
  match r.pendingFire with
  | some ft => if ft ≤ t then fireTimer api storeId r else r
  | none => r

/-- refetch of the provider, called at time t: time first advances to t, then
refetch sets fetching, clears any timer still pending for the store id
(clearTimeout, modelled by overwriting the deadline), and schedules a new timer
for t + 250 whose callback is fetchPage(0, true, storeId). -/
def refetchAt (api : Api) (storeId : String) (r : RefetchState) (t : Nat) : RefetchState :=
  let r1 := advanceTo api storeId r t
  { r1 with feed := { r1.feed with fetching := true }, pendingFire := some (t + 250) }

/-- Run refetch calls at the given increasing times. -/
def runRefetches (api : Api) (storeId : String) (r : RefetchState) (ts : List Nat) :
    RefetchState :=
  ts.foldl (refetchAt api storeId) r

/-- Let time run to infinity: the pending timer, if any, fires. -/
def settleTimers (api : Api) (storeId : String) (r : RefetchState) : RefetchState :=
  fireTimer api storeId r

theorem lookupA_setA_self {α : Type} (m : List (String × α)) (k : String) (v : α) :
    lookupA (setA m k v) k = some v := by
  induction m with
  | nil => simp [setA, lookupA, List.find?]
  | cons x xs ih =>
    by_cases hx : x.1 == k
    · simp [setA, hx, lookupA, List.find?]
    · simpa [setA, hx, lookupA, List.find?] using ih

theorem lookupA_setA_ne {α : Type} (m : List (String × α)) (k k' : String) (v : α)
    (h : k ≠ k') : lookupA (setA m k v) k' = lookupA m k' := by
  have hk : (k == k') = false := by simpa using h
  induction m with
  | nil => simp [setA, lookupA, List.find?, hk]
  | cons x xs ih =>
    by_cases hx : x.1 == k
    · have hx' : x.1 = k := by simpa using hx
      have hxk' : (x.1 == k') = false := by simpa [hx'] using h
      simp [setA, hx, lookupA, List.find?, hk, hxk']
    · by_cases hxk' : x.1 == k'
      · simp [setA, hx, lookupA, List.find?, hxk']
      · simpa [setA, hx, lookupA, List.find?, hxk'] using ih

theorem lookupA_map_values {α β : Type} (m : List (String × α)) (f : α → β) (k : String) :
    lookupA (m.map (fun kv => (kv.1, f kv.2))) k = (lookupA m k).map f := by
  induction m with
  | nil => simp [lookupA]
  | cons x xs ih =>
    by_cases hx : x.1 == k
    · simp [lookupA, List.find?, hx]
    · simpa [lookupA, List.find?, hx] using ih

theorem countP_filter_both {α : Type} (l : List α) (p q : α → Bool) :
    (l.filter q).countP p = l.countP (fun a => p a && q a) := by
  induction l with
  | nil => simp
  | cons x xs ih =>
    by_cases hq : q x <;> by_cases hp : p x <;>
      simp [List.filter_cons, List.countP_cons, hq, hp, ih]

theorem countP_ext {α : Type} (l : List α) (p q : α → Bool) (h : ∀ a, p a = q a) :
    l.countP p = l.countP q := by
  induction l with
  | nil => rfl
  | cons x xs ih => simp [List.countP_cons, h x, ih]

/-- An empty getFeed query: no optional filter present. -/
def emptyQuery : FeedQuery :=
  { channels := none, templates := none, subscriberIds := none, transactionId := none }

/-- A two-environment sample database used by concrete witnesses. -/
def dbSample : List NotificationRecord :=
  [mkRecord "e1" 5, mkRecord "e2" 6, mkRecord "e1" 3]

/-- C1: every record returned by getFeed for environment id E1 has environment
id E1, and therefore, for any E2 distinct from E1, getFeed for E1 never returns
a record whose environment id is E2, for every filter/skip/limit arguments. -/
theorem C1_getFeed_environment_isolation (db : List NotificationRecord)
    (E1 E2 : String) (query : FeedQuery) (skip limit : Nat) (hne : E1 ≠ E2) :
    (∀ r ∈ (getFeed db E1 query skip limit).data, r.environmentId = E1) ∧
    (∀ r ∈ (getFeed db E1 query skip limit).data, r.environmentId ≠ E2) := by
  have henv : ∀ r ∈ (getFeed db E1 query skip limit).data, r.environmentId = E1 := by
    intro r hr
    have hm := mem_getFeed_data hr
    unfold matchesFeed at hm
    simp only [Bool.and_eq_true, beq_iff_eq] at hm
    exact hm.1.1.1.1
  refine ⟨henv, fun r hr => ?_⟩
  rw [henv r hr]
  exact hne

/-- C1 witness: on a concrete three-record database, getFeed for e1 returns only
e1 records and never an e2 record. -/
theorem C1_getFeed_environment_isolation_witness :
    ("e1" : String) ≠ "e2" ∧
    (∀ r ∈ (getFeed dbSample "e1" emptyQuery 0 10).data, r.environmentId = "e1") ∧
    (∀ r ∈ (getFeed dbSample "e1" emptyQuery 0 10).data, r.environmentId ≠ "e2") := by
  refine ⟨by decide, ?_, ?_⟩
  · exact (C1_getFeed_environment_isolation dbSample "e1" "e2" emptyQuery 0 10 (by decide)).1
  · exact (C1_getFeed_environment_isolation dbSample "e1" "e2" emptyQuery 0 10 (by decide)).2

/-- C8: getStats counts conditional sums over a one-year window. For every
environment, weekly counts exactly the environment records created within the
last 7 days, monthly those within the last calendar month (28 to 31 days),
yearly those within the last calendar year (365 or 366 days); and on records
created 8, 40 and 400 days ago the result is weekly 0, monthly 1, yearly 2. -/
theorem C8_getStats_window (now monthDays yearDays : Int)
    (hm1 : 28 ≤ monthDays) (hm2 : monthDays ≤ 31)
    (hy1 : 365 ≤ yearDays) (hy2 : yearDays ≤ 366) :
    (∀ db env, (getStats db env now monthDays yearDays).weekly
        = db.countP (fun r => r.environmentId == env && now - 7 ≤ r.createdAt)) ∧
    (∀ db env, (getStats db env now monthDays yearDays).monthly
        = db.countP (fun r => r.environmentId == env && now - monthDays ≤ r.createdAt)) ∧
    (∀ db env, (getStats db env now monthDays yearDays).yearly
        = db.countP (fun r => r.environmentId == env && now - yearDays ≤ r.createdAt)) ∧
    (∀ env, getStats
        [mkRecord env (now - 8), mkRecord env (now - 40), mkRecord env (now - 400)]
        env now monthDays yearDays = { weekly := 0, monthly := 1, yearly := 2 }) := by
  refine ⟨?_, ?_, ?_, ?_⟩
  · intro db env
    show (db.filter _).countP _ = _
    rw [countP_filter_both]
    apply countP_ext
    intro r
    by_cases he : r.environmentId == env
    · by_cases hw : now - 7 ≤ r.createdAt
      · have hy : now - yearDays ≤ r.createdAt := by omega
        simp [he, hw, hy]
      · simp [he, hw]
    · simp [he]
  · intro db env
    show (db.filter _).countP _ = _
    rw [countP_filter_both]
    apply countP_ext
    intro r
    by_cases he : r.environmentId == env
    · by_cases hw : now - monthDays ≤ r.createdAt
      · have hy : now - yearDays ≤ r.createdAt := by omega
        simp [he, hw, hy]
      · simp [he, hw]
    · simp [he]
  · intro db env
    show (db.filter _).length = _
    rw [List.countP_eq_length_filter]
  · intro env
    unfold getStats
    simp only [mkRecord, List.filter_cons, List.filter_nil, List.countP_cons,
      List.countP_nil, beq_self_eq_true, Bool.true_and]
    split_ifs <;> simp_all [List.countP_cons, List.countP_nil, decide_eq_true_eq] <;>
      (try split_ifs) <;> omega

/-- C8 witness: the window characterisation and the concrete three-record
scenario, instantiated at now 1000 with a 30-day month and a 365-day year. -/
theorem C8_getStats_window_witness :
    getStats
        [mkRecord "e1" (1000 - 8), mkRecord "e1" (1000 - 40), mkRecord "e1" (1000 - 400)]
        "e1" 1000 30 365 = { weekly := 0, monthly := 1, yearly := 2 } :=
  (C8_getStats_window 1000 30 365 (by decide) (by decide) (by decide) (by decide)).2.2.2 "e1"

/-- An api whose getNotificationsList always rejects. -/
def apiFail : Api := fun _ _ => none

/-- An api whose getNotificationsList always resolves with an empty page. -/
def apiEmpty : Api := fun _ _ => some []

theorem fetchPage_fail_state (api : Api) (s : FeedState) (p : JsNum) (isRefetch : Bool)
    (storeId : String) (h : api p storeId = none) :
    fetchPage api s p isRefetch storeId
      = ({ s with fetching := true }, [ApiCall.getNotificationsList p storeId]) := by
  unfold fetchPage
  rw [h]

theorem fetchPage_success_hasNextPage (api : Api) (s : FeedState) (p : JsNum)
    (isRefetch : Bool) (storeId : String) (items : List Message)
    (h : api p storeId = some items) :
    (fetchPage api s p isRefetch storeId).1.hasNextPage
      = setA s.hasNextPage storeId (if items.length < 10 then false else true) := by
  unfold fetchPage
  rw [h]
  by_cases hc : (lookupA s.page storeId).isSome <;> simp [hc]

theorem fetchPage_calls (api : Api) (s : FeedState) (p : JsNum) (isRefetch : Bool)
    (storeId : String) :
    (fetchPage api s p isRefetch storeId).2 = [ApiCall.getNotificationsList p storeId] := by
  unfold fetchPage
  cases api p storeId <;> simp

theorem fetchNextPage_noop (api : Api) (s : FeedState) (storeId : String)
    (h : (lookupA s.hasNextPage storeId).getD false = false) :
    fetchNextPage api s storeId = (s, []) := by
  unfold fetchNextPage
  rw [h]
  simp

theorem fetchNextPage_go (api : Api) (s : FeedState) (storeId : String) (j : JsNum)
    (hh : lookupA s.hasNextPage storeId = some true)
    (hp : lookupA s.page storeId = some j) :
    fetchNextPage api s storeId
      = fetchPage api { s with page := setA s.page storeId j.succ } j.succ false storeId := by
  unfold fetchNextPage
  rw [hh, hp]
  simp

/-- C2: after a completed fetchPage for a store id, the stored has-more flag is
false exactly when the fetch returned fewer than 10 items; and whenever the
stored has-more flag of a store id is false, fetchNextPage on it returns
immediately: it issues no api call and returns the state unchanged. -/
theorem C2_hasMore_semantics (api : Api) (s : FeedState) (p : JsNum) (isRefetch : Bool)
    (storeId : String) (items : List Message) (hapi : api p storeId = some items) :
    (∃ b, lookupA (fetchPage api s p isRefetch storeId).1.hasNextPage storeId = some b ∧
      (b = false ↔ items.length < 10)) ∧
    (∀ s' : FeedState, lookupA s'.hasNextPage storeId = some false →
      fetchNextPage api s' storeId = (s', [])) := by
  constructor
  · refine ⟨if items.length < 10 then false else true, ?_, ?_⟩
    · rw [fetchPage_success_hasNextPage api s p isRefetch storeId items hapi,
        lookupA_setA_self]
    · by_cases h10 : items.length < 10 <;> simp [h10]
  · intro s' h
    exact fetchNextPage_noop api s' storeId (by rw [h]; rfl)

/-- A state whose default store has been marked exhausted. -/
def noMoreState : FeedState := { initialState with hasNextPage := [("default_store", false)] }

/-- C2 witness: a concrete empty page sets has-more to false, and fetchNextPage
on a store whose has-more flag is false is a no-op. -/
theorem C2_hasMore_semantics_witness :
    (∃ b, lookupA
        (fetchPage apiEmpty initialState (JsNum.num 0) false "default_store").1.hasNextPage
        "default_store" = some b ∧ (b = false ↔ ([] : List Message).length < 10)) ∧
    fetchNextPage apiEmpty noMoreState "default_store" = (noMoreState, []) :=
  ⟨(C2_hasMore_semantics apiEmpty initialState (JsNum.num 0) false "default_store" [] rfl).1,
    (C2_hasMore_semantics apiEmpty initialState (JsNum.num 0) false "default_store" [] rfl).2
      noMoreState rfl⟩

/-- C3 counterexample: the claim asserts that fetchNextPage on any store id
never fetched before proceeds as if has-more were true and fetches page 1; but
for the store id custom_store, which is not the pre-seeded default_store, the
hasNextPage lookup is undefined, the guard treats it as falsy, and the call is
a no-op: it issues no api call and leaves the state unchanged. -/
theorem C3_counterexample :
    fetchNextPage apiEmpty initialState "custom_store" = (initialState, []) := by
  rfl

/-- C3 amended: only the pre-seeded store id default_store defaults to page 0
and has-more true before any fetch, and fetchNextPage on it fetches page 1; for
every other store id not yet fetched, the hasNextPage entry is undefined, which
the fetchNextPage guard treats as falsy, so the call is a no-op. -/
theorem C3_default_store_seeded (api : Api) :
    (lookupA initialState.page "default_store" = some (JsNum.num 0) ∧
      lookupA initialState.hasNextPage "default_store" = some true) ∧
    (fetchNextPage api initialState "default_store").2
      = [ApiCall.getNotificationsList (JsNum.num 1) "default_store"] ∧
    (∀ storeId, storeId ≠ "default_store" →
      fetchNextPage api initialState storeId = (initialState, [])) := by
  refine ⟨⟨rfl, rfl⟩, ?_, ?_⟩
  · rw [fetchNextPage_go api initialState "default_store" (JsNum.num 0) rfl rfl]
    exact fetchPage_calls api _ (JsNum.num 1) false "default_store"
  · intro storeId hs
    apply fetchNextPage_noop
    have hb : ("default_store" == storeId) = false := by
      simpa using Ne.symm hs
    simp [initialState, lookupA, List.find?, hb]

/-- C3 amended witness: instantiated with the empty-page api and the store id
custom_store. -/
theorem C3_default_store_seeded_witness :
    (lookupA initialState.page "default_store" = some (JsNum.num 0) ∧
      lookupA initialState.hasNextPage "default_store" = some true) ∧
    (fetchNextPage apiEmpty initialState "default_store").2
      = [ApiCall.getNotificationsList (JsNum.num 1) "default_store"] ∧
    fetchNextPage apiEmpty initialState "other_store" = (initialState, []) :=
  ⟨(C3_default_store_seeded apiEmpty).1,
    (C3_default_store_seeded apiEmpty).2.1,
    (C3_default_store_seeded apiEmpty).2.2 "other_store" (by decide)⟩

/-- C4 counterexample: the claim asserts a failing fetch leaves the stored page
number unchanged; but fetchNextPage increments the page counter before awaiting
the fetch, so after a rejected fetch for default_store the stored page number
is 1 even though it was 0 before. -/
theorem C4_counterexample :
    lookupA (fetchNextPage apiFail initialState "default_store").1.page "default_store"
        = some (JsNum.num 1) ∧
    lookupA initialState.page "default_store" = some (JsNum.num 0) := by
  constructor <;> rfl

/-- C4 amended: the has-more flag is only updated after the fetch has completed
successfully, so a failing fetch leaves it (and the message lists) unchanged;
the page counter however is advanced before the fetch is issued, so a failing
fetchNextPage leaves the stored page number incremented, not unchanged. -/
theorem C4_fail_keeps_hasMore_but_advances_page (api : Api) (s : FeedState)
    (storeId : String) (n : Nat)
    (hh : lookupA s.hasNextPage storeId = some true)
    (hp : lookupA s.page storeId = some (JsNum.num n))
    (hfail : api (JsNum.num (n + 1)) storeId = none) :
    (fetchNextPage api s storeId).1.hasNextPage = s.hasNextPage ∧
    (fetchNextPage api s storeId).1.notifications = s.notifications ∧
    lookupA (fetchNextPage api s storeId).1.page storeId = some (JsNum.num (n + 1)) := by
  rw [fetchNextPage_go api s storeId (JsNum.num n) hh hp]
  have hs : JsNum.succ (JsNum.num n) = JsNum.num (n + 1) := rfl
  rw [hs, fetchPage_fail_state api _ (JsNum.num (n + 1)) false storeId hfail]
  exact ⟨rfl, rfl, lookupA_setA_self s.page storeId (JsNum.num (n + 1))⟩

/-- C4 amended witness: a rejected fetch on the initial state keeps the has-more
map and the message lists but advances the default store page to 1. -/
theorem C4_fail_keeps_hasMore_but_advances_page_witness :
    (fetchNextPage apiFail initialState "default_store").1.hasNextPage
        = initialState.hasNextPage ∧
    (fetchNextPage apiFail initialState "default_store").1.notifications
        = initialState.notifications ∧
    lookupA (fetchNextPage apiFail initialState "default_store").1.page "default_store"
        = some (JsNum.num 1) :=
  C4_fail_keeps_hasMore_but_advances_page apiFail initialState "default_store" 0 rfl rfl rfl

/-- A sample unseen, unread message with a defined read field. -/
def msg1 : Message :=
  { id := "m1", seen := false, read := some false, actionStatus := MessageActionStatus.pending }

/-- A sample seen message with an undefined read field. -/
def msg2 : Message :=
  { id := "m2", seen := true, read := none, actionStatus := MessageActionStatus.pending }

/-- A sample feed state holding msg1 and msg2 in the default store and msg1 in
a second store. -/
def sampleState : FeedState :=
  { notifications := [("default_store", [msg1, msg2]), ("second_store", [msg1])]
    page := [("default_store", JsNum.num 0)]
    hasNextPage := [("default_store", true)]
    fetching := false }

/-- C5: after updateAction on message id M completes, in every store list every
message whose id is M carries action status done (all other fields preserved),
and every message whose id is not M is unchanged, position by position. -/
theorem C5_updateAction_done_frame (s : FeedState) (M actionButtonType : String)
    (status : MessageActionStatus) :
    ∀ storeId msgs,
      lookupA s.notifications storeId = some msgs →
      ∃ msgs',
        lookupA (updateAction s M actionButtonType status).1.notifications storeId
          = some msgs' ∧
        ∀ i : Nat, ∀ m : Message, msgs[i]? = some m →
          (m.id = M →
            msgs'[i]? = some { m with actionStatus := MessageActionStatus.done }) ∧
          (m.id ≠ M → msgs'[i]? = some m) := by
  intro storeId msgs h
  refine ⟨msgs.map (fun m =>
    if m.id == M then { m with actionStatus := MessageActionStatus.done } else m), ?_, ?_⟩
  · show lookupA (s.notifications.map _) storeId = _
    rw [lookupA_map_values s.notifications
      (fun l => l.map (fun m =>
        if m.id == M then { m with actionStatus := MessageActionStatus.done } else m))
      storeId, h]
    rfl
  · intro i m hm
    constructor
    · intro hid
      rw [List.getElem?_map, hm]
      simp [hid]
    · intro hid
      rw [List.getElem?_map, hm]
      simp [hid]

/-- C5 witness: instantiated on the sample state for message id m1 in the
default store, checking the patched first position and the untouched second. -/
theorem C5_updateAction_done_frame_witness :
    ∃ msgs',
      lookupA (updateAction sampleState "m1" "primary"
          MessageActionStatus.pending).1.notifications "default_store" = some msgs' ∧
      ∀ i : Nat, ∀ m : Message, [msg1, msg2][i]? = some m →
        (m.id = "m1" →
          msgs'[i]? = some { m with actionStatus := MessageActionStatus.done }) ∧
        (m.id ≠ "m1" → msgs'[i]? = some m) :=
  C5_updateAction_done_frame sampleState "m1" "primary" MessageActionStatus.pending
    "default_store" [msg1, msg2] rfl

/-- C6 counterexample: the claim asserts markAsRead performs the remote call and
then locally patches the matching message in every store that contains it; but
on a concrete state whose default store contains the unread message m1,
markAsRead returns the state completely unchanged: no local patch happens. -/
theorem C6_counterexample :
    lookupA sampleState.notifications "default_store" = some [msg1, msg2] ∧
    msg1.read = some false ∧ msg1.seen = false ∧
    (markAsRead sampleState "m1").1 = sampleState := by
  exact ⟨rfl, rfl, rfl, rfl⟩

/-- C6 amended: markAsRead(id) only performs the remote mark-as-read call and
returns its result; unlike updateAction it applies no local patch, leaving
every store message list unchanged. -/
theorem C6_markAsRead_remote_only (s : FeedState) (messageId : String) :
    markAsRead s messageId = (s, [ApiCall.markMessageAsRead messageId]) := rfl

/-- C7: with no explicit messages, markNotificationsAsSeen on a store id with
an existing message list sends to the remote mark-as-seen call exactly the ids
of the messages of that store whose seen flag is false, and with readExist true
only those among them whose read field is defined. -/
theorem C7_markSeen_exact (s : FeedState) (readExist : Bool) (storeId : String)
    (msgs : List Message) (h : lookupA s.notifications storeId = some msgs) :
    ∃ calls, markNotificationsAsSeen s readExist none storeId = some calls ∧
      seenIdsSent calls =
        (if readExist then
            (msgs.filter (fun m => !m.seen)).filter (fun m => m.read.isSome)
          else msgs.filter (fun m => !m.seen)).map (fun m => m.id) := by
  unfold markNotificationsAsSeen getNotificationsToMark
  rw [h]
  refine ⟨_, rfl, ?_⟩
  by_cases hne : (msgs.filter (fun m => !m.seen)).length ≠ 0
  · have hex : ∃ x ∈ msgs, x.seen = false := by
      cases hl : msgs.filter (fun m => !m.seen) with
      | nil => exact absurd (by simp [hl]) hne
      | cons a l =>
        have ha : a ∈ msgs.filter (fun m => !m.seen) := by
          rw [hl]; exact List.mem_cons_self a l
        have hm := List.mem_filter.mp ha
        exact ⟨a, hm.1, by simpa using hm.2⟩
    cases readExist <;> simp [seenIdsSent, filterReadNotifications, hex]
  · have he : msgs.filter (fun m => !m.seen) = [] := by
      rcases List.eq_nil_or_concat (msgs.filter (fun m => !m.seen)) with h0 | ⟨l, a, h0⟩
      · exact h0
      · exfalso; apply hne; simp [h0]
    simp [he, seenIdsSent]

/-- C7 witness: on the sample state, the default store holds unseen m1 (read
defined) and seen m2, and with readExist true exactly the id m1 is sent. -/
theorem C7_markSeen_exact_witness :
    ∃ calls, markNotificationsAsSeen sampleState true none "default_store" = some calls ∧
      seenIdsSent calls =
        (if true then
            (([msg1, msg2].filter (fun m => !m.seen)).filter (fun m => m.read.isSome))
          else [msg1, msg2].filter (fun m => !m.seen)).map (fun m => m.id) :=
  C7_markSeen_exact sampleState true "default_store" [msg1, msg2] rfl

/-- C9: two refetch calls for the same store id within 250 ms result in exactly
one underlying fetch: the second call finds the first timer still pending,
cancels it and schedules its own, so nothing has fired when the second call
returns, and once time runs on, exactly one page-0 fetch call is issued. -/
theorem C9_refetch_debounce (api : Api) (storeId : String) (t1 t2 : Nat)
    (h12 : t1 ≤ t2) (hlt : t2 < t1 + 250) :
    (runRefetches api storeId initialRefetchState [t1, t2]).pendingFire = some (t2 + 250) ∧
    (runRefetches api storeId initialRefetchState [t1, t2]).fireCount = 0 ∧
    (runRefetches api storeId initialRefetchState [t1, t2]).calls = [] ∧
    (settleTimers api storeId
        (runRefetches api storeId initialRefetchState [t1, t2])).fireCount = 1 ∧
    (settleTimers api storeId
        (runRefetches api storeId initialRefetchState [t1, t2])).calls
      = [ApiCall.getNotificationsList (JsNum.num 0) storeId] := by
  have hpend : ¬ (t1 + 250 ≤ t2) := by omega
  have hrun : runRefetches api storeId initialRefetchState [t1, t2]
      = { feed := { initialState with fetching := true }
          pendingFire := some (t2 + 250), calls := [], fireCount := 0 } := by
    unfold runRefetches
    simp [List.foldl, refetchAt, advanceTo, initialRefetchState, hpend]
  rw [hrun]
  refine ⟨rfl, rfl, rfl, ?_, ?_⟩
  · unfold settleTimers fireTimer
    simp
  · unfold settleTimers fireTimer
    simp [fetchPage_calls]

/-- C9 witness: two refetch calls at 0 ms and 100 ms with the empty-page api
yield no fire before settling and exactly one page-0 fetch after. -/
theorem C9_refetch_debounce_witness :
    (runRefetches apiEmpty "default_store" initialRefetchState [0, 100]).fireCount = 0 ∧
    (settleTimers apiEmpty "default_store"
        (runRefetches apiEmpty "default_store" initialRefetchState [0, 100])).fireCount = 1 ∧
    (settleTimers apiEmpty "default_store"
        (runRefetches apiEmpty "default_store" initialRefetchState [0, 100])).calls
      = [ApiCall.getNotificationsList (JsNum.num 0) "default_store"] :=
  ⟨(C9_refetch_debounce apiEmpty "default_store" 0 100 (by decide) (by decide)).2.1,
    (C9_refetch_debounce apiEmpty "default_store" 0 100 (by decide) (by decide)).2.2.2.1,
    (C9_refetch_debounce apiEmpty "default_store" 0 100 (by decide) (by decide)).2.2.2.2⟩

/-- C10: the local patch of updateAction writes the constant done status on the
matching messages whatever status argument is passed: the resulting state is
the same for any two status arguments, the status argument only reaches the
remote call, and every matching message in the patched state has status done. -/
theorem C10_updateAction_status_ignored (s : FeedState) (M actionButtonType : String)
    (status status' : MessageActionStatus) :
    (updateAction s M actionButtonType status).1
        = (updateAction s M actionButtonType status').1 ∧
    (updateAction s M actionButtonType status).2
        = [ApiCall.updateActionCall M actionButtonType status] ∧
    (∀ storeId msgs m,
      lookupA (updateAction s M actionButtonType status).1.notifications storeId = some msgs →
      m ∈ msgs → m.id = M → m.actionStatus = MessageActionStatus.done) := by
  refine ⟨rfl, rfl, ?_⟩
  intro storeId msgs m hl hm hid
  have hl' : (lookupA s.notifications storeId).map
      (fun l => l.map (fun x =>
        if x.id == M then { x with actionStatus := MessageActionStatus.done } else x))
      = some msgs := by
    rw [← lookupA_map_values]
    exact hl
  cases h0 : lookupA s.notifications storeId with
  | none => rw [h0] at hl'; simp at hl'
  | some msgs0 =>
    rw [h0] at hl'
    simp only [Option.map_some', Option.some.injEq] at hl'
    subst hl'
    rcases List.mem_map.mp hm with ⟨m0, hm0, rfl⟩
    by_cases hc : m0.id == M
    · simp [hc]
    · exfalso
      apply hc
      simp only [beq_iff_eq]
      simpa [hc] using hid

/-- C10 witness: on the sample state the patched states for the pending and
done status arguments coincide, and the patched m1 carries status done. -/
theorem C10_updateAction_status_ignored_witness :
    (updateAction sampleState "m1" "primary" MessageActionStatus.pending).1
        = (updateAction sampleState "m1" "primary" MessageActionStatus.done).1 ∧
    ({ msg1 with actionStatus := MessageActionStatus.done } : Message).actionStatus
        = MessageActionStatus.done :=
  ⟨(C10_updateAction_status_ignored sampleState "m1" "primary"
      MessageActionStatus.pending MessageActionStatus.done).1,
    (C10_updateAction_status_ignored sampleState "m1" "primary"
      MessageActionStatus.pending MessageActionStatus.done).2.2 "default_store"
      [{ msg1 with actionStatus := MessageActionStatus.done }, msg2]
      { msg1 with actionStatus := MessageActionStatus.done }
      rfl (by simp) rfl⟩

end NovuModel
